import Mathlib

/-!
Verification development for the moeru-ai/airi-minecraft control layer.

The development embeds, as executable Lean functions, the two cores of the
repository that the checked claims are about:

* the Action Execution Engine, class ActionManager (src/unnamed/part_001),
  together with the composable variant useActionManager (src/unnamed/part_002);
* the Planning Pipeline, class PlanningAgentImpl (src/unnamed/part_010) and
  ContextManager (src/unnamed/part_013, with its guarded call site in
  src/src/agents/planning/adapter.ts).

External collaborators (the mineflayer bot, the LLM completion gateway, the
memory agent, wall-clock time) are modelled as explicit oracle parameters.
Asynchronous effects are modelled by explicit state passing: the engine state
carries the action queue and the execution flags, and the points where the
JavaScript runtime can interleave other work (the await of an action body)
are modelled by explicit parameters (actions arriving during the body, the
deadline timer firing during the body).  Event emissions (the interrupt
raised by stop() and the timeout notification) are modelled as counters in
the state, and the set of action bodies actually run is recorded in an
executedIds log so that theorems can speak about what executed.
-/

deriving instance DecidableEq for Except

namespace AiriMC

/-! ## Action Execution Engine (src/unnamed/part_001) -/

/-- Outcome of one action body: the zero-argument effectful fn either returns
normally or throws.  This is the only behaviour of an ActionFn the engine
observes. -/
inductive BodyOutcome where
  | retOk
  | throws
deriving DecidableEq, Repr

/-- Model of an ActionFn closure: an identity (JavaScript object identity,
used by the queue's findIndex identity test) plus its behaviour. -/
structure ActionFn where
  id : Nat
  outcome : BodyOutcome
deriving DecidableEq, Repr

/-- QueuedAction from part_001 lines 15-20. -/
structure QueuedAction where
  label : String
  fn : ActionFn
  timeout : Nat
  resume : Bool
deriving DecidableEq, Repr

/-- ActionResult from part_001 lines 9-13. -/
structure ActionResult where
  success : Bool
  message : Option String
  timedout : Bool
deriving DecidableEq, Repr

/-- The engine state of ActionManager (part_001 lines 23-35), with three
observation channels added for the model: interruptEvents counts the
interrupt emissions performed by stop(), timeoutEvents counts the timeout
notifications emitted by the deadline timer, and executedIds records, in
order, the ids of the action bodies that were actually invoked.
timerActive models whether the deadline timer armed by startTimeout is
currently pending (a one-shot timer: firing or clearTimeout disarms it). -/
structure EngineState where
  actionQueue : List QueuedAction
  executing : Bool
  currentActionLabel : String
  currentActionFn : Option ActionFn
  timedout : Bool
  resumeFunc : Option ActionFn
  resumeName : Option String
  timerActive : Bool
  interruptEvents : Nat
  timeoutEvents : Nat
  executedIds : List Nat
deriving DecidableEq, Repr

/-- The initial engine state (part_001 lines 23-35). -/
def initState : EngineState :=
  { actionQueue := [], executing := false, currentActionLabel := "",
    currentActionFn := none, timedout := false, resumeFunc := none,
    resumeName := none, timerActive := false, interruptEvents := 0,
    timeoutEvents := 0, executedIds := [] }

/-- stop() (part_001 lines 67-71): emit the interrupt signal and clear the
pending action queue. -/
def stop (s : EngineState) : EngineState :=
  { s with interruptEvents := s.interruptEvents + 1, actionQueue := [] }

/-- cancelResume() (part_001 lines 73-76). -/
def cancelResume (s : EngineState) : EngineState :=
  { s with resumeFunc := none, resumeName := none }

/-- resetExecutionState (part_001 lines 181-187).  handlePassed is whether a
timeout handle was passed (the code only calls clearTimeout when one was). -/
def resetExecutionState (handlePassed : Bool) (s : EngineState) : EngineState :=
  { s with executing := false, currentActionLabel := "",
           currentActionFn := none,
           timerActive := if handlePassed then false else s.timerActive }

/-- The callback armed by startTimeout (part_001 lines 189-196): set the
timedout flag, emit the timeout notification, call stop().  A fired one-shot
timer is spent, so timerActive becomes false. -/
def timerFire (s : EngineState) : EngineState :=
  stop { s with timedout := true, timeoutEvents := s.timeoutEvents + 1,
                timerActive := false }

/-- Behaviour of the optional-chaining call await actionFn?.() -/
def bodyOutcomeOf : Option ActionFn → BodyOutcome
  | some f => f.outcome
  | none => BodyOutcome.retOk

/-- Ids logged when the body is invoked (nothing is invoked when fn is
undefined). -/
def executedIdsOf : Option ActionFn → List Nat
  | some f => [f.id]
  | none => []

/-- executeAction (part_001 lines 143-179), as a state transformer.
Control flow from the source: call stop() (which clears the queue), set
the execution state, arm the deadline timer when timeout > 0, await the
body, then on normal return reset the execution state and report success,
and on a thrown error reset the execution state, cancel the resume slot,
call stop() again and report failure.

The await of the body is the engine's suspension point: timerFires says
whether the armed deadline elapsed before the body completed, and
arr1 / arr2 are the actions pushed onto the queue by concurrent
queueAction calls during the body, before and after the firing point. -/
def executeAction (s : EngineState) (actionLabel : String)
    (actionFn : Option ActionFn) (timeout : Nat) (timerFires : Bool)
    (arr1 arr2 : List QueuedAction) : ActionResult × EngineState :=
  let s1 := stop s
  let s2 := { s1 with executing := true, currentActionLabel := actionLabel,
                      currentActionFn := actionFn }
  let s3 := if 0 < timeout then { s2 with timerActive := true } else s2
  let s4 := { s3 with actionQueue := s3.actionQueue ++ arr1 }
  let s5 := if 0 < timeout then (if timerFires then timerFire s4 else s4) else s4
  let s6 := { s5 with actionQueue := s5.actionQueue ++ arr2 }
  let s7 := { s6 with executedIds := s6.executedIds ++ executedIdsOf actionFn }
  match bodyOutcomeOf actionFn with
  | BodyOutcome.retOk =>
      ({ success := true, message := some "success", timedout := false },
       resetExecutionState (decide (0 < timeout)) s7)
  | BodyOutcome.throws =>
      ({ success := false, message := some "failed", timedout := false },
       stop (cancelResume (resetExecutionState (decide (0 < timeout)) s7)))

/-- The fixed result produced on the success paths (part_001 lines 93, 117,
169). -/
def successResult : ActionResult :=
  { success := true, message := some "success", timedout := false }

/-- The result of a thrown action body (part_001 line 177). -/
def failedResult : ActionResult :=
  { success := false, message := some "failed", timedout := false }

/-- The no-op result of the resume handler (part_001 line 134). -/
def resumeNoopResult : ActionResult :=
  { success := false, message := none, timedout := false }

/-- executeResume (part_001 lines 120-141).  isNewResume is actionFn being
non-null; a new resume with a falsy label throws (modelled as Except.error);
canExecute is resumeFunc non-null AND isNewResume, so with no fresh fn the
handler returns the no-op result without touching the state. -/
def executeResume (s : EngineState) (actionLabel : Option String)
    (actionFn : Option ActionFn) (timeout : Nat) (timerFires : Bool)
    (arr1 arr2 : List QueuedAction) :
    Except String (ActionResult × EngineState) :=
  match actionFn with
  | none =>
      Except.ok (resumeNoopResult, s)
  | some f =>
      match actionLabel with
      | none => Except.error "actionLabel is required for new resume"
      | some lbl =>
          if lbl = "" then Except.error "actionLabel is required for new resume"
          else
            let s1 := { s with resumeFunc := some f, resumeName := some lbl }
            let s2 := { s1 with currentActionLabel := lbl }
            let p := executeAction s2 lbl (some f) timeout timerFires arr1 arr2
            Except.ok (p.1, { p.2 with currentActionLabel := "" })

/-- processQueue (part_001 lines 99-118): drain loop.  sched gives, for the
i-th executed action, the suspension-point data of its body (timer firing,
arrivals).  fuel bounds the number of loop iterations; every run of the
source loop is reproduced by a large enough fuel since each iteration
removes the head.  A thrown resume-label error propagates (Except.error). -/
def processQueue : Nat → (Nat → Bool × List QueuedAction × List QueuedAction) →
    Nat → EngineState → Except String (ActionResult × EngineState)
  | 0, _, _, s => Except.ok (successResult, s)
  | fuel+1, sched, i, s =>
      match s.actionQueue with
      | [] => Except.ok (successResult, s)
      | action :: _ =>
          let t := sched i
          let step : Except String (ActionResult × EngineState) :=
            if action.resume then
              executeResume s (some action.label) (some action.fn)
                action.timeout t.1 t.2.1 t.2.2
            else
              Except.ok (executeAction s action.label (some action.fn)
                action.timeout t.1 t.2.1 t.2.2)
          match step with
          | Except.error e => Except.error e
          | Except.ok (r, s1) =>
              let s2 := { s1 with actionQueue := s1.actionQueue.tail }
              if r.success then processQueue fuel sched (i+1) s2
              else Except.ok (r, { s2 with actionQueue := [] })

/-- queueAction (part_001 lines 78-97): push the action, and when the engine
is idle start draining.  When the engine is busy the call returns a pending
promise (first component none); its later resolution is governed by the
polling interval modelled by waiterPoll below. -/
def queueAction (s : EngineState) (action : QueuedAction) (fuel : Nat)
    (sched : Nat → Bool × List QueuedAction × List QueuedAction) :
    Except String (Option ActionResult × EngineState) :=
  let s1 := { s with actionQueue := s.actionQueue ++ [action] }
  if s1.executing then Except.ok (none, s1)
  else (processQueue fuel sched 0 s1).map (fun p => (some p.1, p.2))

/-- One poll of the checkQueue interval of a busy-path caller (part_001
lines 88-96): the promise stays pending while the QueuedAction is still in
the queue, and resolves with the fixed success value as soon as it is not
(findIndex by object identity; identity is modelled by the structural
identity of the action, made unique by its fn id). -/
def waiterPoll (s : EngineState) (action : QueuedAction) : Option ActionResult :=
  if action ∈ s.actionQueue then none else some successResult

/-! ## Composable variant useActionManager (src/unnamed/part_002)

This variant has no queue: runAction dispatches directly, and the resume
eligibility check additionally consults the bot idle flag and the
self-prompter flag.  Only the resume path is embedded here (the claims
about this file concern _executeResume); the bot-log bookkeeping and the
deadline timer of _executeAction are outside every settled claim and are
not modelled, while its guard structure, state mutations, execution of the
body and result shapes are taken from the source. -/

/-- ActionResult of part_002 lines 8-13 (carries interrupted as well). -/
structure FnActionResult where
  success : Bool
  message : Option String
  interrupted : Bool
  timedout : Bool
deriving DecidableEq, Repr

/-- State of useActionManager (part_002 lines 48-57) plus the interrupt
counter and executed-body log used as observation channels. -/
structure FnEngineState where
  executing : Bool
  currentActionLabel : Option String
  currentActionFn : Option ActionFn
  timedout : Bool
  resumeFunc : Option ActionFn
  resumeName : Option String
  interruptEvents : Nat
  executedIds : List Nat
deriving DecidableEq, Repr

/-- _resetExecutionState (part_002 lines 166-172). -/
def fnResetExecutionState (s : FnEngineState) : FnEngineState :=
  { s with executing := false, currentActionLabel := some "",
           currentActionFn := none }

/-- cancelResume (part_002 lines 80-83). -/
def fnCancelResume (s : FnEngineState) : FnEngineState :=
  { s with resumeFunc := none, resumeName := none }

/-- _executeAction (part_002 lines 111-164): stop() emits the interrupt,
the execution state is set, the body runs; on normal return the state is
reset and the bot-output summary (oracle parameter output) is the message;
on a thrown error the state is reset, the resume slot is cancelled, stop()
is called again and the formatted error message (oracle parameter errMsg)
is the message.  interruptedFlag is the externally owned
bot.interrupt_code flag read after the body. -/
def fnExecuteAction (s : FnEngineState) (actionLabel : Option String)
    (actionFn : Option ActionFn) (output errMsg : String)
    (interruptedFlag : Bool) : FnActionResult × FnEngineState :=
  let s1 := { s with interruptEvents := s.interruptEvents + 1 }
  let s2 := { s1 with executing := true, currentActionLabel := actionLabel,
                      currentActionFn := actionFn }
  let s3 := { s2 with executedIds := s2.executedIds ++ executedIdsOf actionFn }
  match bodyOutcomeOf actionFn with
  | BodyOutcome.retOk =>
      ({ success := true, message := some output, interrupted := interruptedFlag,
         timedout := false }, fnResetExecutionState s3)
  | BodyOutcome.throws =>
      let s4 := fnCancelResume (fnResetExecutionState s3)
      let s5 := { s4 with interruptEvents := s4.interruptEvents + 1 }
      ({ success := false, message := some errMsg, interrupted := interruptedFlag,
         timedout := false }, s5)

/-- The no-op result of _executeResume (part_002 line 102). -/
def fnResumeNoopResult : FnActionResult :=
  { success := false, message := none, interrupted := false, timedout := false }

/-- The canExecute test and execution tail of _executeResume (part_002
lines 97-108), shared by both slot-update branches. -/
def fnExecuteResumeRun (s : FnEngineState) (isIdle selfPrompterOn
    isNewResume : Bool) (output errMsg : String) (interruptedFlag : Bool) :
    FnActionResult × FnEngineState :=
  let canExecute := s.resumeFunc.isSome && (isIdle || isNewResume)
      && (!selfPrompterOn || isNewResume)
  if canExecute then
    let s2 := { s with currentActionLabel := s.resumeName }
    let p := fnExecuteAction s2 s.resumeName s.resumeFunc output errMsg
        interruptedFlag
    (p.1, { p.2 with currentActionLabel := some "" })
  else
    (fnResumeNoopResult, s)

/-- _executeResume (part_002 lines 86-109).  isIdle is bot.isIdle() and
selfPrompterOn is self_prompter.on, both externally owned. -/
def fnExecuteResume (s : FnEngineState) (isIdle selfPrompterOn : Bool)
    (actionLabel : Option String) (actionFn : Option ActionFn)
    (output errMsg : String) (interruptedFlag : Bool) :
    Except String (FnActionResult × FnEngineState) :=
  match actionFn with
  | none =>
      Except.ok (fnExecuteResumeRun s isIdle selfPrompterOn false output errMsg
        interruptedFlag)
  | some f =>
      match actionLabel with
      | none => Except.error "actionLabel is required for new resume"
      | some lbl =>
          if lbl = "" then Except.error "actionLabel is required for new resume"
          else
            let s1 := { s with resumeFunc := some f, resumeName := some lbl }
            Except.ok (fnExecuteResumeRun s1 isIdle selfPrompterOn true output
              errMsg interruptedFlag)

/-! ## Planning Pipeline (src/unnamed/part_010, part_013)

The planner's external collaborators are oracles: the LLM gateway call
llmHandler.generatePlan is a parameter giving the steps it returned, the
memory agent's recall is a parameter giving the cached plan, and Date.now()
is a Nat parameter. -/

/-- Plan status values (libs/mineflayer/base-agent). -/
inductive PlanStatus where
  | pending
  | inProgress
  | completed
  | failed
deriving DecidableEq, Repr

/-- PlanStep from the planning llm-handler. -/
structure PlanStep where
  description : String
  tool : String
  reasoning : String
deriving DecidableEq, Repr

/-- Plan from libs/mineflayer/base-agent as used by part_010. -/
structure Plan where
  goal : String
  steps : List PlanStep
  status : PlanStatus
  requiresAction : Bool
deriving DecidableEq, Repr

/-- PlanContext (part_010 lines 9-17 and part_013).  Timestamps are Nats. -/
structure PlanContext where
  goal : String
  currentStep : Nat
  startTime : Nat
  lastUpdate : Nat
  retryCount : Nat
  isGenerating : Bool
  pendingSteps : List PlanStep
deriving DecidableEq, Repr

/-! ### String matching helpers

JavaScript String.prototype.includes and the three regular expressions of
parseGoalRequirements (part_010 lines 546-620), implemented over character
lists. -/

/-- pat is a prefix of cs. -/
def charsHasPre : List Char → List Char → Bool
  | [], _ => true
  | _ :: _, [] => false
  | p :: ps, c :: cs => p = c && charsHasPre ps cs

/-- pat occurs somewhere in cs. -/
def charsIncludes : List Char → List Char → Bool
  | pat, [] => charsHasPre pat []
  | pat, c :: cs => charsHasPre pat (c :: cs) || charsIncludes pat cs

/-- JavaScript s.includes(pat). -/
def jsIncludes (s pat : String) : Bool :=
  charsIncludes pat.toList s.toList

/-- ASCII lowercase of one character (String.prototype.toLowerCase, which
the goals of this code use only on ASCII text). -/
def lowerChar (c : Char) : Char :=
  if 65 ≤ c.toNat ∧ c.toNat ≤ 90 then Char.ofNat (c.toNat + 32) else c

/-- JavaScript s.toLowerCase(). -/
def jsToLower (s : String) : String :=
  String.mk (s.toList.map lowerChar)

/-- JavaScript regex word character \w = [A-Za-z0-9_]. -/
def isWordChar (c : Char) : Bool :=
  c.isAlpha || c.isDigit || c = '_'

/-- Try the pattern kw SPACE (\w+) at the start of cs; on success return the
captured word and the number of characters consumed. -/
def tryOneKwWord (kw : String) (cs : List Char) : Option (String × Nat) :=
  let k := kw.toList
  if charsHasPre k cs then
    match cs.drop k.length with
    | ' ' :: rest =>
        let w := rest.takeWhile isWordChar
        if w.isEmpty then none
        else some (String.mk w, k.length + 1 + w.length)
    | _ => none
  else none

/-- Ordered alternation: first keyword of kws that matches at cs wins
(JavaScript alternation is ordered). -/
def tryKwsWord : List String → List Char → Option (String × Nat)
  | [], _ => none
  | kw :: kws, cs =>
      match tryOneKwWord kw cs with
      | some r => some r
      | none => tryKwsWord kws cs

/-- Global scan of /(kw1|kw2|...) (\w+)/g collecting every captured word:
leftmost matches taken successively, each match consumed (lastIndex
advances past it).  fuel bounds the scan; cs.length suffices since every
step consumes at least one character. -/
def scanKwWord (kws : List String) : Nat → List Char → List String
  | 0, _ => []
  | _, [] => []
  | fuel+1, c :: cs =>
      match tryKwsWord kws (c :: cs) with
      | some (w, n) => w :: scanKwWord kws fuel ((c :: cs).drop n)
      | none => scanKwWord kws fuel cs

/-- First captured word of /(kw1|kw2|...) (\w+)/ in cs, scanning left to
right. -/
def firstKwWord (kws : List String) : List Char → Option String
  | [] => none
  | c :: cs =>
      match tryKwsWord kws (c :: cs) with
      | some (w, _) => some w
      | none => firstKwWord kws cs

/-- Separator class [, ] of the location regex. -/
def isSepChar (c : Char) : Bool :=
  c = ',' || c = ' '

/-- Numeric value of a digit string (JavaScript Number on the captured
digits). -/
def parseNatDigits (ds : List Char) : Nat :=
  ds.foldl (fun n d => n * 10 + (d.toNat - 48)) 0

/-- Try kw SPACE (\d+)[, ]+(\d+)[, ]+(\d+) at the start of cs; return the
three captured numbers. -/
def tryLocAt (kw : String) (cs : List Char) : Option (Nat × Nat × Nat) :=
  let k := kw.toList
  if charsHasPre k cs then
    match cs.drop k.length with
    | ' ' :: r0 =>
        let d1 := r0.takeWhile Char.isDigit
        if d1.isEmpty then none else
        let r1 := r0.drop d1.length
        let s1 := r1.takeWhile isSepChar
        if s1.isEmpty then none else
        let r2 := r1.drop s1.length
        let d2 := r2.takeWhile Char.isDigit
        if d2.isEmpty then none else
        let r3 := r2.drop d2.length
        let s2 := r3.takeWhile isSepChar
        if s2.isEmpty then none else
        let r4 := r3.drop s2.length
        let d3 := r4.takeWhile Char.isDigit
        if d3.isEmpty then none else
        some (parseNatDigits d1, parseNatDigits d2, parseNatDigits d3)
    | _ => none
  else none

/-- First match of /(go to|move to|at) (\d+)[, ]+(\d+)[, ]+(\d+)/ in cs. -/
def firstLoc : List Char → Option (Nat × Nat × Nat)
  | [] => none
  | c :: cs =>
      match tryLocAt "go to" (c :: cs) with
      | some r => some r
      | none =>
          match tryLocAt "move to" (c :: cs) with
          | some r => some r
          | none =>
              match tryLocAt "at" (c :: cs) with
              | some r => some r
              | none => firstLoc cs

/-! ### parseGoalRequirements and createPlan (part_010) -/

/-- The requirements record built by parseGoalRequirements (part_010 lines
546-620). -/
structure GoalRequirements where
  needsItems : Bool
  items : List String
  needsMovement : Bool
  location : Option (Nat × Nat × Nat)
  needsInteraction : Bool
  target : Option String
  needsCrafting : Bool
  needsCombat : Bool
deriving DecidableEq, Repr

/-- Keywords of the item-extraction regex (part_010 line 570). -/
def itemKeywords : List String :=
  ["collect", "get", "find", "craft", "make", "build", "use", "equip"]

/-- Keywords of the target-extraction regex (part_010 line 585). -/
def targetKeywords : List String :=
  ["interact with", "use", "open", "activate"]

/-- parseGoalRequirements (part_010 lines 546-620): regex extractions over
the lowercased goal followed by the keyword includes checks; each flag is
the disjunction of every assignment the source makes to it. -/
def parseGoalRequirements (goal : String) : GoalRequirements :=
  let gl := jsToLower goal
  let cs := gl.toList
  let itemMatches := scanKwWord itemKeywords cs.length cs
  let loc := firstLoc cs
  let tgt := firstKwWord targetKeywords cs
  { needsItems := !itemMatches.isEmpty || jsIncludes gl "collect"
      || jsIncludes gl "get" || jsIncludes gl "find" || jsIncludes gl "craft"
      || jsIncludes gl "make" || jsIncludes gl "build",
    items := itemMatches,
    needsMovement := loc.isSome || jsIncludes gl "collect"
      || jsIncludes gl "get" || jsIncludes gl "find" || jsIncludes gl "go to"
      || jsIncludes gl "move to" || jsIncludes gl "follow"
      || jsIncludes gl "attack" || jsIncludes gl "fight"
      || jsIncludes gl "kill",
    location := loc,
    needsInteraction := tgt.isSome || jsIncludes gl "interact"
      || jsIncludes gl "use" || jsIncludes gl "open",
    target := tgt,
    needsCrafting := jsIncludes gl "craft" || jsIncludes gl "make"
      || jsIncludes gl "build",
    needsCombat := jsIncludes gl "attack" || jsIncludes gl "fight"
      || jsIncludes gl "kill" }

/-- doesGoalRequireAction (part_010 lines 527-534). -/
def doesGoalRequireAction (r : GoalRequirements) : Bool :=
  r.needsItems || r.needsMovement || r.needsInteraction || r.needsCrafting
    || r.needsCombat

/-- createPlan (part_010 lines 72-136) restricted to the value it returns.
cached is the result of loadCachedPlan (always none in the class as
written, since the memoryAgent field is never assigned a non-null value);
genSteps is the llmHandler.generatePlan oracle for the action-requiring
branch. -/
def createPlan (goal : String) (cached : Option Plan)
    (genSteps : List PlanStep) : Plan :=
  match cached with
  | some p => p
  | none =>
      let requirements := parseGoalRequirements goal
      if !doesGoalRequireAction requirements then
        { goal := goal, steps := [], status := PlanStatus.completed,
          requiresAction := false }
      else
        { goal := goal, steps := genSteps, status := PlanStatus.pending,
          requiresAction := true }

/-! ### Recovery steps and adjustPlan (part_010) -/

/-- generateRecoverySteps (part_010 lines 427-478): a pure pattern match on
the feedback string. -/
def generateRecoverySteps (feedback : String) : List PlanStep :=
  (if jsIncludes feedback "not found" then
    [{ description := "Search in a wider area", tool := "searchForBlock",
       reasoning := "The target was not found in the immediate vicinity" }]
   else [])
  ++ (if jsIncludes feedback "inventory full" then
    [{ description := "Clear inventory space", tool := "discard",
       reasoning := "We need to make room in our inventory" }]
   else [])
  ++ (if jsIncludes feedback "blocked" || jsIncludes feedback "cannot reach" then
    [{ description := "Move away from obstacles", tool := "moveAway",
       reasoning := "We need to find a clear path" }]
   else [])
  ++ (if jsIncludes feedback "too far" then
    [{ description := "Move closer to target", tool := "moveAway",
       reasoning := "We need to get within range" }]
   else [])
  ++ (if jsIncludes feedback "need tool" then
    [{ description := "Craft a wooden pickaxe", tool := "craftRecipe",
       reasoning := "We need the appropriate tool for this task" },
     { description := "Equip the wooden pickaxe", tool := "equip",
       reasoning := "We need to use the tool we just crafted" }]
   else [])

/-- adjustPlan (part_010 lines 344-385).  ctx is this.context; newSteps is
the generatePlanSteps oracle (the LLM call made in the context branch);
cached and genSteps feed the createPlan fallback taken when no context is
active. -/
def adjustPlan (ctx : Option PlanContext) (plan : Plan) (feedback : String)
    (newSteps : List PlanStep) (cached : Option Plan)
    (genSteps : List PlanStep) : Plan :=
  match ctx with
  | some c =>
      { goal := plan.goal,
        steps := plan.steps.take c.currentStep
          ++ generateRecoverySteps feedback ++ newSteps,
        status := PlanStatus.pending,
        requiresAction := true }
  | none => createPlan plan.goal cached genSteps

/-- handleInterrupt (part_010 lines 520-525): when a current plan exists its
status is set to failed and the context is cleared. -/
def handleInterrupt (currentPlan : Option Plan) (ctx : Option PlanContext) :
    Option Plan × Option PlanContext :=
  match currentPlan with
  | some p => (some { p with status := PlanStatus.failed }, none)
  | none => (currentPlan, ctx)

/-- The status trajectory of executePlan (part_010 lines 138-170) on an
action-requiring plan: status is set to in_progress, then completed when
the step pipeline finishes, or failed when it throws (execOk).  Plans with
requiresAction false are returned untouched. -/
def executePlanStatus (plan : Plan) (execOk : Bool) : Plan :=
  if !plan.requiresAction then plan
  else if execOk then { plan with status := PlanStatus.completed }
  else { plan with status := PlanStatus.failed }

/-! ### Step generator (part_010 lines 277-305) -/

/-- Whether the createStepGenerator loop reaches chunk k (0-based).
batches k is the list the completion gateway returned for chunk k and
achieved k the value of isGoalAchieved evaluated after yielding chunk k.
The loop continues past chunk k exactly when the chunk was non-empty, had
length at least chunkSize = 3, and the goal was not achieved. -/
def generatorReaches (batches : Nat → List PlanStep) (achieved : Nat → Bool) :
    Nat → Bool
  | 0 => true
  | k+1 => generatorReaches batches achieved k
      && !(batches k).isEmpty
      && decide (3 ≤ (batches k).length)
      && !achieved k

/-- The k-th yielded element of the generator (none when the stream ended
before chunk k or chunk k came back empty, which breaks before yielding). -/
def generatorYield (batches : Nat → List PlanStep) (achieved : Nat → Bool)
    (k : Nat) : Option (List PlanStep) :=
  if generatorReaches batches achieved k && !(batches k).isEmpty then
    some (batches k)
  else none

/-! ### Retry bookkeeping (part_010 lines 249-268, part_013,
src/src/agents/planning/adapter.ts lines 336-345) -/

/-- maxRetries (part_013 line 13, and the literal 3 of part_010 line 253). -/
def maxRetries : Nat := 3

/-- canRetry (part_013 lines 40-42). -/
def canRetry (c : PlanContext) : Bool :=
  c.retryCount < maxRetries

/-- incrementRetry (part_013 lines 47-49). -/
def incrementRetry (c : PlanContext) : PlanContext :=
  { c with retryCount := c.retryCount + 1 }

/-- updateContext (part_013 lines 31-35). -/
def updateContext (c : PlanContext) (plan : Plan) (now : Nat) : PlanContext :=
  { c with lastUpdate := now, currentStep := 0, pendingSteps := plan.steps }

/-- createContext (part_013 lines 65-75), also the context literal of
createPlan (part_010 lines 120-128). -/
def createContext (goal : String) (now : Nat) : PlanContext :=
  { goal := goal, currentStep := 0, startTime := now, lastUpdate := now,
    retryCount := 0, isGenerating := false, pendingSteps := [] }

/-- The retry branch of executeStepsStream (part_010 lines 253-257): the
increment happens only under the retryCount < 3 guard (otherwise the step
error is rethrown and the context is untouched). -/
def retryStepUpdate (c : PlanContext) : PlanContext :=
  if c.retryCount < 3 then
    { c with retryCount := c.retryCount + 1, isGenerating := false,
             pendingSteps := [] }
  else c

/-- The guarded retry gate of the adapter (adapter.ts lines 339-345): a
canRetry check that throws PlanHandlerError when exhausted, then
incrementRetry. -/
def adapterRetryGate (c : PlanContext) : Except String PlanContext :=
  if canRetry c then Except.ok (incrementRetry c)
  else Except.error "Maximum retry attempts reached"

/-- Every operation of the planning code that mutates a live PlanContext,
as an explicit alphabet for the retry-count invariants. -/
inductive ContextOp where
  | update (plan : Plan) (now : Nat)
  | stepAdvance (now : Nat)
  | retryGuarded
  | retryManaged
  | haltGeneration
deriving Repr

/-- Apply a context operation: update is part_013 updateContext, stepAdvance
the currentStep++ and lastUpdate of part_010 lines 246-247, retryGuarded
the guarded increment of part_010 lines 253-257, retryManaged the adapter's
canRetry-then-incrementRetry call site, haltGeneration the
isGenerating = false writes. -/
def applyOp : ContextOp → PlanContext → PlanContext
  | ContextOp.update plan now, c => updateContext c plan now
  | ContextOp.stepAdvance now, c =>
      { c with lastUpdate := now, currentStep := c.currentStep + 1 }
  | ContextOp.retryGuarded, c => retryStepUpdate c
  | ContextOp.retryManaged, c =>
      match adapterRetryGate c with
      | Except.ok c1 => c1
      | Except.error _ => c
  | ContextOp.haltGeneration, c => { c with isGenerating := false }

/-- The retry recursion of executePlan / executeStepsStream (part_010 lines
138-275) in an environment where every performAction call throws with
message e.  Arguments: fuel (at least 4 - retryCount reproduces every run),
current retryCount.  Result: the status this invocation leaves on its plan,
the final retryCount, and the propagated error if the invocation threw.
The recursive call is the await this.executePlan(adjustedPlan) of line 263;
a throw from it propagates, and each invocation on the way out sets its own
plan's status to failed (line 164) and rethrows. -/
def executePlanAllFail (e : String) : Nat → Nat → PlanStatus × Nat × Option String
  | 0, rc => (PlanStatus.inProgress, rc, none)
  | fuel+1, rc =>
      if rc < 3 then
        match executePlanAllFail e fuel (rc + 1) with
        | (_, rc1, some m) => (PlanStatus.failed, rc1, some m)
        | (_, rc1, none) => (PlanStatus.completed, rc1, none)
      else
        (PlanStatus.failed, rc, some e)

/-! ## Concrete scenario data used by counterexamples and witnesses -/

/-- A schedule with no timer firing and no concurrent submissions. -/
def schedNone : Nat → Bool × List QueuedAction × List QueuedAction :=
  fun _ => (false, [], [])

/-- A throwing action submitted first in the C1 scenario. -/
def c1A : QueuedAction :=
  { label := "a", fn := { id := 1, outcome := BodyOutcome.throws },
    timeout := 0, resume := false }

/-- An ordinary action submitted while c1A is executing. -/
def c1B : QueuedAction :=
  { label := "b", fn := { id := 2, outcome := BodyOutcome.retOk },
    timeout := 0, resume := false }

/-- Schedule for the C1 scenario: c1B arrives during the body of the first
executed action. -/
def c1Sched : Nat → Bool × List QueuedAction × List QueuedAction
  | 0 => (false, [c1B], [])
  | _ => (false, [], [])

/-- The engine state after the C1 scenario run. -/
def c1Final : EngineState :=
  { actionQueue := [], executing := false, currentActionLabel := "",
    currentActionFn := none, timedout := false, resumeFunc := none,
    resumeName := none, timerActive := false, interruptEvents := 2,
    timeoutEvents := 0, executedIds := [1] }

/-- A plain successful action used by the C1 witness. -/
def w1Act : QueuedAction :=
  { label := "w1", fn := { id := 5, outcome := BodyOutcome.retOk },
    timeout := 0, resume := false }

/-- Start state of the C1 witness drain. -/
def w1Start : EngineState := { initState with actionQueue := [w1Act] }

/-- Final state of the C1 witness drain. -/
def w1Final : EngineState :=
  { actionQueue := [], executing := false, currentActionLabel := "",
    currentActionFn := none, timedout := false, resumeFunc := none,
    resumeName := none, timerActive := false, interruptEvents := 1,
    timeoutEvents := 0, executedIds := [5] }

/-- A busy engine state used by the C2 witness. -/
def w2Busy : EngineState := { initState with executing := true }

/-- The action submitted to the busy engine in the C2 witness. -/
def w2Act : QueuedAction :=
  { label := "w2", fn := { id := 11, outcome := BodyOutcome.retOk },
    timeout := 0, resume := false }

/-- A throwing head action used by the C3 witness. -/
def w3Act : QueuedAction :=
  { label := "w3", fn := { id := 21, outcome := BodyOutcome.throws },
    timeout := 0, resume := false }

/-- Start state of the C3 witness drain. -/
def w3Start : EngineState := { initState with actionQueue := [w3Act] }

/-- A context two retries in, used by the C4 witness. -/
def w4Ctx : PlanContext :=
  { goal := "w4", currentStep := 1, startTime := 0, lastUpdate := 0,
    retryCount := 2, isGenerating := true, pendingSteps := [] }

/-- The remembered resume function of the C5 counterexample. -/
def c5Fn : ActionFn := { id := 7, outcome := BodyOutcome.retOk }

/-- State of the useActionManager variant with a remembered resume slot and
no fresh function about to be supplied. -/
def c5State : FnEngineState :=
  { executing := false, currentActionLabel := some "", currentActionFn := none,
    timedout := false, resumeFunc := some c5Fn, resumeName := some "dig",
    interruptEvents := 0, executedIds := [] }

/-- Final state of the C5 counterexample run: the remembered body ran. -/
def c5Final : FnEngineState :=
  { executing := false, currentActionLabel := some "", currentActionFn := none,
    timedout := false, resumeFunc := some c5Fn, resumeName := some "dig",
    interruptEvents := 1, executedIds := [7] }

/-- Fresh function supplied in the C5 witness. -/
def w5Fn : ActionFn := { id := 41, outcome := BodyOutcome.retOk }

/-- Body of the C6 witness action. -/
def w6Fn : ActionFn := { id := 31, outcome := BodyOutcome.retOk }

/-- A step literal for the C7 counterexample batches. -/
def c7Step : PlanStep := { description := "d", tool := "t", reasoning := "r" }

/-- A step literal for the C7 witness. -/
def w7Step : PlanStep := { description := "wd", tool := "wt", reasoning := "wr" }

/-- The broaden-search recovery step (part_010 lines 431-435). -/
def recoverySearchStep : PlanStep :=
  { description := "Search in a wider area", tool := "searchForBlock",
    reasoning := "The target was not found in the immediate vicinity" }

/-- The discard recovery step (part_010 lines 439-443). -/
def recoveryDiscardStep : PlanStep :=
  { description := "Clear inventory space", tool := "discard",
    reasoning := "We need to make room in our inventory" }

/-- The reposition recovery step (part_010 lines 447-451). -/
def recoveryMoveAwayStep : PlanStep :=
  { description := "Move away from obstacles", tool := "moveAway",
    reasoning := "We need to find a clear path" }

/-- The craft recovery step (part_010 lines 464-468). -/
def recoveryCraftStep : PlanStep :=
  { description := "Craft a wooden pickaxe", tool := "craftRecipe",
    reasoning := "We need the appropriate tool for this task" }

/-- The equip recovery step (part_010 lines 469-473). -/
def recoveryEquipStep : PlanStep :=
  { description := "Equip the wooden pickaxe", tool := "equip",
    reasoning := "We need to use the tool we just crafted" }

/-- The failed plan handed to adjustPlan in the C8 counterexample; its goal
is classified as requiring no action by parseGoalRequirements. -/
def c8Plan : Plan :=
  { goal := "hello", steps := [], status := PlanStatus.failed,
    requiresAction := true }

/-- A completed plan still referenced as currentPlan, for the C9
counterexample. -/
def c9Plan : Plan :=
  { goal := "mine stone", steps := [], status := PlanStatus.completed,
    requiresAction := true }

/-- A failed plan for the C9 witness. -/
def w9Plan : Plan :=
  { goal := "w9", steps := [], status := PlanStatus.failed,
    requiresAction := true }

/-- An active context for the C9 witness. -/
def w9Ctx : PlanContext :=
  { goal := "w9", currentStep := 0, startTime := 0, lastUpdate := 0,
    retryCount := 0, isGenerating := false, pendingSteps := [] }

/-- An action whose run the C10 witness inspects. -/
def w10Act : QueuedAction :=
  { label := "w10", fn := { id := 51, outcome := BodyOutcome.retOk },
    timeout := 0, resume := false }

/-- Start state of the C10 witness drain. -/
def w10Start : EngineState :=
  { initState with actionQueue := [w10Act], timedout := true }

/-! ## Helper lemmas -/

theorem executeAction_executedIds (s : EngineState) (l : String)
    (fn : Option ActionFn) (t : Nat) (fires : Bool) (a1 a2 : List QueuedAction) :
    ((executeAction s l fn t fires a1 a2).2).executedIds
      = s.executedIds ++ executedIdsOf fn := by
  unfold executeAction
  rcases h : bodyOutcomeOf fn <;>
    simp only [h] <;>
    split_ifs <;>
    simp [stop, cancelResume, resetExecutionState, timerFire]

theorem executeAction_result_timedout (s : EngineState) (l : String)
    (fn : Option ActionFn) (t : Nat) (fires : Bool) (a1 a2 : List QueuedAction) :
    ((executeAction s l fn t fires a1 a2).1).timedout = false := by
  unfold executeAction
  rcases h : bodyOutcomeOf fn <;> simp only [h] <;> split_ifs <;> simp

theorem executeAction_state_timedout (s : EngineState) (l : String)
    (fn : Option ActionFn) (t : Nat) (fires : Bool) (a1 a2 : List QueuedAction) :
    ((executeAction s l fn t fires a1 a2).2).timedout
      = (s.timedout || (decide (0 < t) && fires)) := by
  unfold executeAction
  rcases h : bodyOutcomeOf fn <;>
    simp only [h] <;>
    split_ifs <;>
    simp_all [stop, cancelResume, resetExecutionState, timerFire]

theorem executeAction_throws (s : EngineState) (l : String) (f : ActionFn)
    (t : Nat) (fires : Bool) (a1 a2 : List QueuedAction)
    (hf : f.outcome = BodyOutcome.throws) :
    (executeAction s l (some f) t fires a1 a2).1 = failedResult ∧
    ((executeAction s l (some f) t fires a1 a2).2).executing = false ∧
    ((executeAction s l (some f) t fires a1 a2).2).currentActionLabel = "" ∧
    ((executeAction s l (some f) t fires a1 a2).2).currentActionFn = none ∧
    ((executeAction s l (some f) t fires a1 a2).2).resumeFunc = none ∧
    ((executeAction s l (some f) t fires a1 a2).2).resumeName = none ∧
    ((executeAction s l (some f) t fires a1 a2).2).actionQueue = [] ∧
    (0 < t → ((executeAction s l (some f) t fires a1 a2).2).timerActive = false) ∧
    (s.timerActive = false →
      ((executeAction s l (some f) t fires a1 a2).2).timerActive = false) ∧
    s.interruptEvents + 2
      ≤ ((executeAction s l (some f) t fires a1 a2).2).interruptEvents := by
  unfold executeAction
  simp only [bodyOutcomeOf, hf]
  split_ifs with h1 h2 <;>
    simp_all [stop, cancelResume, resetExecutionState, timerFire, failedResult]

theorem executeResume_extend (s : EngineState) (lbl : Option String)
    (fn : Option ActionFn) (t : Nat) (fires : Bool) (a1 a2 : List QueuedAction)
    (r : ActionResult) (s' : EngineState)
    (h : executeResume s lbl fn t fires a1 a2 = Except.ok (r, s')) :
    ∃ ids, s'.executedIds = s.executedIds ++ ids := by
  unfold executeResume at h
  rcases fn with _ | f
  · simp only [Except.ok.injEq, Prod.mk.injEq] at h
    exact ⟨[], by simp [← h.2]⟩
  · rcases lbl with _ | lbl
    · simp at h
    · by_cases hl : lbl = ""
      · simp [hl] at h
      · simp only [hl, if_false] at h
        simp only [Except.ok.injEq, Prod.mk.injEq] at h
        refine ⟨[f.id], ?_⟩
        rw [← h.2]
        simpa using executeAction_executedIds _ lbl (some f) t fires a1 a2

theorem executeResume_result_timedout (s : EngineState) (lbl : Option String)
    (fn : Option ActionFn) (t : Nat) (fires : Bool) (a1 a2 : List QueuedAction)
    (r : ActionResult) (s' : EngineState)
    (h : executeResume s lbl fn t fires a1 a2 = Except.ok (r, s')) :
    r.timedout = false := by
  unfold executeResume at h
  rcases fn with _ | f
  · simp only [Except.ok.injEq, Prod.mk.injEq] at h
    rw [← h.1]; rfl
  · rcases lbl with _ | lbl
    · simp at h
    · by_cases hl : lbl = ""
      · simp [hl] at h
      · simp only [hl, if_false, Except.ok.injEq, Prod.mk.injEq] at h
        rw [← h.1]
        exact executeAction_result_timedout _ _ _ _ _ _ _

theorem executeResume_state_timedout (s : EngineState) (lbl : Option String)
    (fn : Option ActionFn) (t : Nat) (fires : Bool) (a1 a2 : List QueuedAction)
    (r : ActionResult) (s' : EngineState)
    (h : executeResume s lbl fn t fires a1 a2 = Except.ok (r, s'))
    (ht : s.timedout = true) : s'.timedout = true := by
  unfold executeResume at h
  rcases fn with _ | f
  · simp only [Except.ok.injEq, Prod.mk.injEq] at h
    rw [← h.2]; exact ht
  · rcases lbl with _ | lbl
    · simp at h
    · by_cases hl : lbl = ""
      · simp [hl] at h
      · simp only [hl, if_false, Except.ok.injEq, Prod.mk.injEq] at h
        rw [← h.2]
        simpa [ht] using executeAction_state_timedout
          { s with resumeFunc := some f, resumeName := some lbl,
                   currentActionLabel := lbl } lbl (some f) t fires a1 a2

theorem processQueue_extend (fuel : Nat) :
    ∀ (sched : Nat → Bool × List QueuedAction × List QueuedAction) (i : Nat)
      (s : EngineState) (r : ActionResult) (s' : EngineState),
      processQueue fuel sched i s = Except.ok (r, s') →
      ∃ ids, s'.executedIds = s.executedIds ++ ids := by
  induction fuel with
  | zero =>
      intro sched i s r s' h
      simp only [processQueue, Except.ok.injEq, Prod.mk.injEq] at h
      exact ⟨[], by simp [← h.2]⟩
  | succ n ih =>
      intro sched i s r s' h
      rw [processQueue] at h
      rcases hq : s.actionQueue with _ | ⟨action, rest⟩
      · rw [hq] at h
        simp only [Except.ok.injEq, Prod.mk.injEq] at h
        exact ⟨[], by simp [← h.2]⟩
      · rw [hq] at h
        simp only at h
        by_cases hr : action.resume
        · rw [if_pos hr] at h
          rcases he : executeResume s (some action.label) (some action.fn)
              action.timeout (sched i).1 (sched i).2.1 (sched i).2.2 with e | ⟨r0, s1⟩
          · rw [he] at h; simp at h
          · rw [he] at h
            simp only at h
            obtain ⟨ids0, hids0⟩ := executeResume_extend _ _ _ _ _ _ _ _ _ he
            by_cases hs : r0.success
            · rw [if_pos hs] at h
              obtain ⟨ids1, hids1⟩ := ih sched (i+1) _ r s' h
              exact ⟨ids0 ++ ids1, by simp [hids1, hids0, List.append_assoc]⟩
            · rw [if_neg hs] at h
              simp only [Except.ok.injEq, Prod.mk.injEq] at h
              exact ⟨ids0, by rw [← h.2]; simpa using hids0⟩
        · rw [if_neg hr] at h
          simp only at h
          set p := executeAction s action.label (some action.fn) action.timeout
              (sched i).1 (sched i).2.1 (sched i).2.2 with hp
          have hids0 : p.2.executedIds = s.executedIds ++ [action.fn.id] := by
            simpa using executeAction_executedIds s action.label (some action.fn)
              action.timeout (sched i).1 (sched i).2.1 (sched i).2.2
          by_cases hs : p.1.success
          · rw [if_pos hs] at h
            obtain ⟨ids1, hids1⟩ := ih sched (i+1) _ r s' h
            refine ⟨[action.fn.id] ++ ids1, ?_⟩
            simp only [hids1]
            simp [hids0, List.append_assoc]
          · rw [if_neg hs] at h
            simp only [Except.ok.injEq, Prod.mk.injEq] at h
            exact ⟨[action.fn.id], by rw [← h.2]; simpa using hids0⟩

theorem processQueue_failure_clears (fuel : Nat) :
    ∀ (sched : Nat → Bool × List QueuedAction × List QueuedAction) (i : Nat)
      (s : EngineState) (r : ActionResult) (s' : EngineState),
      processQueue fuel sched i s = Except.ok (r, s') →
      r.success = false → s'.actionQueue = [] := by
  induction fuel with
  | zero =>
      intro sched i s r s' h hf
      simp only [processQueue, Except.ok.injEq, Prod.mk.injEq] at h
      rw [← h.1] at hf
      simp [successResult] at hf
  | succ n ih =>
      intro sched i s r s' h hf
      rw [processQueue] at h
      rcases hq : s.actionQueue with _ | ⟨action, rest⟩
      · rw [hq] at h
        simp only [Except.ok.injEq, Prod.mk.injEq] at h
        rw [← h.1] at hf
        simp [successResult] at hf
      · rw [hq] at h
        simp only at h
        by_cases hr : action.resume
        · rw [if_pos hr] at h
          rcases he : executeResume s (some action.label) (some action.fn)
              action.timeout (sched i).1 (sched i).2.1 (sched i).2.2 with e | ⟨r0, s1⟩
          · rw [he] at h; simp at h
          · rw [he] at h
            simp only at h
            by_cases hs : r0.success
            · rw [if_pos hs] at h
              exact ih sched (i+1) _ r s' h hf
            · rw [if_neg hs] at h
              simp only [Except.ok.injEq, Prod.mk.injEq] at h
              rw [← h.2]
        · rw [if_neg hr] at h
          simp only at h
          set p := executeAction s action.label (some action.fn) action.timeout
              (sched i).1 (sched i).2.1 (sched i).2.2 with hp
          by_cases hs : p.1.success
          · rw [if_pos hs] at h
            exact ih sched (i+1) _ r s' h hf
          · rw [if_neg hs] at h
            simp only [Except.ok.injEq, Prod.mk.injEq] at h
            rw [← h.2]

theorem processQueue_result_timedout (fuel : Nat) :
    ∀ (sched : Nat → Bool × List QueuedAction × List QueuedAction) (i : Nat)
      (s : EngineState) (r : ActionResult) (s' : EngineState),
      processQueue fuel sched i s = Except.ok (r, s') → r.timedout = false := by
  induction fuel with
  | zero =>
      intro sched i s r s' h
      simp only [processQueue, Except.ok.injEq, Prod.mk.injEq] at h
      rw [← h.1]; rfl
  | succ n ih =>
      intro sched i s r s' h
      rw [processQueue] at h
      rcases hq : s.actionQueue with _ | ⟨action, rest⟩
      · rw [hq] at h
        simp only [Except.ok.injEq, Prod.mk.injEq] at h
        rw [← h.1]; rfl
      · rw [hq] at h
        simp only at h
        by_cases hr : action.resume
        · rw [if_pos hr] at h
          rcases he : executeResume s (some action.label) (some action.fn)
              action.timeout (sched i).1 (sched i).2.1 (sched i).2.2 with e | ⟨r0, s1⟩
          · rw [he] at h; simp at h
          · rw [he] at h
            simp only at h
            by_cases hs : r0.success
            · rw [if_pos hs] at h
              exact ih sched (i+1) _ r s' h
            · rw [if_neg hs] at h
              simp only [Except.ok.injEq, Prod.mk.injEq] at h
              rw [← h.1]
              exact executeResume_result_timedout _ _ _ _ _ _ _ _ _ he
        · rw [if_neg hr] at h
          simp only at h
          set p := executeAction s action.label (some action.fn) action.timeout
              (sched i).1 (sched i).2.1 (sched i).2.2 with hp
          by_cases hs : p.1.success
          · rw [if_pos hs] at h
            exact ih sched (i+1) _ r s' h
          · rw [if_neg hs] at h
            simp only [Except.ok.injEq, Prod.mk.injEq] at h
            rw [← h.1]
            exact executeAction_result_timedout _ _ _ _ _ _ _

theorem processQueue_timedout_mono (fuel : Nat) :
    ∀ (sched : Nat → Bool × List QueuedAction × List QueuedAction) (i : Nat)
      (s : EngineState) (r : ActionResult) (s' : EngineState),
      processQueue fuel sched i s = Except.ok (r, s') →
      s.timedout = true → s'.timedout = true := by
  induction fuel with
  | zero =>
      intro sched i s r s' h ht
      simp only [processQueue, Except.ok.injEq, Prod.mk.injEq] at h
      rw [← h.2]; exact ht
  | succ n ih =>
      intro sched i s r s' h ht
      rw [processQueue] at h
      rcases hq : s.actionQueue with _ | ⟨action, rest⟩
      · rw [hq] at h
        simp only [Except.ok.injEq, Prod.mk.injEq] at h
        rw [← h.2]; exact ht
      · rw [hq] at h
        simp only at h
        by_cases hr : action.resume
        · rw [if_pos hr] at h
          rcases he : executeResume s (some action.label) (some action.fn)
              action.timeout (sched i).1 (sched i).2.1 (sched i).2.2 with e | ⟨r0, s1⟩
          · rw [he] at h; simp at h
          · rw [he] at h
            simp only at h
            have h1 : s1.timedout = true :=
              executeResume_state_timedout _ _ _ _ _ _ _ _ _ he ht
            by_cases hs : r0.success
            · rw [if_pos hs] at h
              exact ih sched (i+1) _ r s' h h1
            · rw [if_neg hs] at h
              simp only [Except.ok.injEq, Prod.mk.injEq] at h
              rw [← h.2]; exact h1
        · rw [if_neg hr] at h
          simp only at h
          set p := executeAction s action.label (some action.fn) action.timeout
              (sched i).1 (sched i).2.1 (sched i).2.2 with hp
          have h1 : p.2.timedout = true := by
            rw [executeAction_state_timedout, ht]; rfl
          by_cases hs : p.1.success
          · rw [if_pos hs] at h
            exact ih sched (i+1) _ r s' h h1
          · rw [if_neg hs] at h
            simp only [Except.ok.injEq, Prod.mk.injEq] at h
            rw [← h.2]; exact h1

theorem processQueue_head_first (fuel : Nat)
    (sched : Nat → Bool × List QueuedAction × List QueuedAction) (i : Nat)
    (s : EngineState) (action : QueuedAction) (rest : List QueuedAction)
    (r : ActionResult) (s' : EngineState)
    (hq : s.actionQueue = action :: rest) (hr : action.resume = false)
    (h : processQueue (fuel+1) sched i s = Except.ok (r, s')) :
    ∃ ids, s'.executedIds = s.executedIds ++ action.fn.id :: ids := by
  rw [processQueue, hq] at h
  simp only [hr, Bool.false_eq_true, if_false] at h
  set p := executeAction s action.label (some action.fn) action.timeout
      (sched i).1 (sched i).2.1 (sched i).2.2 with hp
  have hids0 : p.2.executedIds = s.executedIds ++ [action.fn.id] := by
    simpa using executeAction_executedIds s action.label (some action.fn)
      action.timeout (sched i).1 (sched i).2.1 (sched i).2.2
  by_cases hs : p.1.success
  · rw [if_pos hs] at h
    obtain ⟨ids1, hids1⟩ := processQueue_extend fuel sched (i+1) _ r s' h
    refine ⟨ids1, ?_⟩
    rw [hids1]
    simp [hids0, List.append_assoc]
  · rw [if_neg hs] at h
    simp only [Except.ok.injEq, Prod.mk.injEq] at h
    refine ⟨[], ?_⟩
    rw [← h.2]
    simpa using hids0

theorem processQueue_head_throws (fuel : Nat)
    (sched : Nat → Bool × List QueuedAction × List QueuedAction) (i : Nat)
    (s : EngineState) (action : QueuedAction) (rest : List QueuedAction)
    (hq : s.actionQueue = action :: rest) (hr : action.resume = false)
    (hf : action.fn.outcome = BodyOutcome.throws) :
    ∃ s', processQueue (fuel+1) sched i s = Except.ok (failedResult, s') ∧
      s'.actionQueue = [] ∧ s'.executedIds = s.executedIds ++ [action.fn.id] := by
  rw [processQueue, hq]
  simp only [hr, Bool.false_eq_true, if_false]
  set p := executeAction s action.label (some action.fn) action.timeout
      (sched i).1 (sched i).2.1 (sched i).2.2 with hp
  have h1 : p.1 = failedResult :=
    (executeAction_throws s action.label action.fn action.timeout
      (sched i).1 (sched i).2.1 (sched i).2.2 hf).1
  have hs : ¬ p.1.success = true := by rw [h1]; simp [failedResult]
  rw [if_neg hs]
  refine ⟨_, by rw [h1], rfl, ?_⟩
  simpa using executeAction_executedIds s action.label (some action.fn)
    action.timeout (sched i).1 (sched i).2.1 (sched i).2.2

theorem waiterPoll_resolved_value (s : EngineState) (b : QueuedAction)
    (r : ActionResult) (h : waiterPoll s b = some r) : r = successResult := by
  unfold waiterPoll at h
  split at h
  · simp at h
  · simp only [Option.some.injEq] at h
    exact h.symm

theorem waiterPoll_pending_iff (s : EngineState) (b : QueuedAction) :
    waiterPoll s b = none ↔ b ∈ s.actionQueue := by
  unfold waiterPoll
  split <;> simp_all

theorem waiterPoll_after_stop (s : EngineState) (b : QueuedAction) :
    waiterPoll (stop s) b = some successResult := by
  simp [waiterPoll, stop]

theorem queueAction_busy (s : EngineState) (a : QueuedAction) (fuel : Nat)
    (sched : Nat → Bool × List QueuedAction × List QueuedAction)
    (h : s.executing = true) :
    queueAction s a fuel sched
      = Except.ok (none, { s with actionQueue := s.actionQueue ++ [a] }) := by
  simp [queueAction, h]

theorem queueAction_drained (s : EngineState) (a : QueuedAction) (fuel : Nat)
    (sched : Nat → Bool × List QueuedAction × List QueuedAction)
    (r : ActionResult) (s' : EngineState)
    (h : queueAction s a fuel sched = Except.ok (some r, s')) :
    ∃ s0, processQueue fuel sched 0 s0 = Except.ok (r, s') := by
  by_cases hx : s.executing
  · simp [queueAction, hx] at h
  · have hx' : s.executing = false := by simpa using hx
    simp only [queueAction, hx'] at h
    rw [if_neg (by simp)] at h
    rcases hp : processQueue fuel sched 0
        { s with actionQueue := s.actionQueue ++ [a], executing := false }
        with e | ⟨r0, s0⟩
    · rw [hp] at h; simp [Except.map] at h
    · rw [hp] at h
      simp only [Except.map, Except.ok.injEq, Prod.mk.injEq, Option.some.injEq] at h
      exact ⟨_, by rw [hp, h.1, h.2]⟩

theorem executeResume_no_fresh_fn (s : EngineState) (lbl : Option String)
    (t : Nat) (fires : Bool) (a1 a2 : List QueuedAction) :
    executeResume s lbl none t fires a1 a2 = Except.ok (resumeNoopResult, s) := rfl

theorem executeResume_fresh_fn (s : EngineState) (lbl : String) (f : ActionFn)
    (t : Nat) (fires : Bool) (a1 a2 : List QueuedAction) (hl : lbl ≠ "") :
    ∃ r s', executeResume s (some lbl) (some f) t fires a1 a2 = Except.ok (r, s')
      ∧ s'.executedIds = s.executedIds ++ [f.id] := by
  unfold executeResume
  dsimp only
  rw [if_neg hl]
  refine ⟨_, _, rfl, ?_⟩
  simpa using executeAction_executedIds
    { s with resumeFunc := some f, resumeName := some lbl,
             currentActionLabel := lbl } lbl (some f) t fires a1 a2

theorem fnExecuteResume_no_slot (s : FnEngineState) (idle sp : Bool)
    (o e : String) (i : Bool) (h : s.resumeFunc = none) :
    fnExecuteResume s idle sp none none o e i
      = Except.ok (fnResumeNoopResult, s) := by
  simp [fnExecuteResume, fnExecuteResumeRun, h]

theorem applyOp_mono (op : ContextOp) (c : PlanContext) :
    c.retryCount ≤ (applyOp op c).retryCount := by
  cases op <;>
    simp [applyOp, updateContext, retryStepUpdate, adapterRetryGate, canRetry,
      incrementRetry, maxRetries] <;>
    split_ifs <;> simp <;> omega

theorem applyOp_bound (op : ContextOp) (c : PlanContext)
    (h : c.retryCount ≤ maxRetries) : (applyOp op c).retryCount ≤ maxRetries := by
  cases op <;>
    simp_all [applyOp, updateContext, retryStepUpdate, adapterRetryGate, canRetry,
      incrementRetry, maxRetries] <;>
    split_ifs <;> simp_all <;> omega

theorem generatorYield_nonempty (b : Nat → List PlanStep) (a : Nat → Bool)
    (k : Nat) (l : List PlanStep) (h : generatorYield b a k = some l) :
    l ≠ [] ∧ l = b k := by
  unfold generatorYield at h
  split at h
  · next hc =>
      simp only [Option.some.injEq] at h
      subst h
      simp only [Bool.and_eq_true, Bool.not_eq_true'] at hc
      refine ⟨?_, rfl⟩
      intro hnil
      rw [hnil] at hc
      simp at hc
  · simp at h

theorem generatorReaches_succ (b : Nat → List PlanStep) (a : Nat → Bool)
    (k : Nat) :
    generatorReaches b a (k+1) = true ↔
      (generatorReaches b a k = true ∧ b k ≠ [] ∧ 3 ≤ (b k).length
        ∧ a k = false) := by
  simp only [generatorReaches, Bool.and_eq_true, Bool.not_eq_true',
    decide_eq_true_eq, List.isEmpty_eq_false]
  tauto

theorem generatorYield_none_iff (b : Nat → List PlanStep) (a : Nat → Bool)
    (k : Nat) :
    generatorYield b a k = none ↔
      (generatorReaches b a k = false ∨ b k = []) := by
  unfold generatorYield
  split <;> rename_i hc
  · simp only [Bool.and_eq_true, Bool.not_eq_true', List.isEmpty_eq_false] at hc
    simp [hc.1, hc.2]
  · simp only [Bool.and_eq_true, not_and, Bool.not_eq_true'] at hc
    constructor
    · intro _
      by_cases hg : generatorReaches b a k = true
      · right
        have := hc hg
        simpa [List.isEmpty_iff] using this
      · left; simpa using hg
    · intro _; rfl

theorem handleInterrupt_sets_failed (p : Plan) (c : Option PlanContext) :
    handleInterrupt (some p) c
      = (some { p with status := PlanStatus.failed }, none) := rfl

theorem adjustPlan_ctx_status (c : PlanContext) (plan : Plan) (fb : String)
    (ns : List PlanStep) (ca : Option Plan) (gs : List PlanStep) :
    (adjustPlan (some c) plan fb ns ca gs).status = PlanStatus.pending := rfl

theorem adjustPlan_new_value (c : PlanContext) (plan : Plan) (fb : String)
    (ns : List PlanStep) (ca : Option Plan) (gs : List PlanStep)
    (h : plan.status = PlanStatus.failed) :
    adjustPlan (some c) plan fb ns ca gs ≠ plan := by
  intro he
  have hs : (adjustPlan (some c) plan fb ns ca gs).status = plan.status := by
    rw [he]
  rw [adjustPlan_ctx_status, h] at hs
  exact absurd hs (by simp)

theorem executePlanStatus_terminal (plan : Plan) (ok : Bool)
    (h : plan.requiresAction = true) :
    (executePlanStatus plan ok).status
      = (if ok then PlanStatus.completed else PlanStatus.failed) := by
  unfold executePlanStatus
  rw [h]
  cases ok <;> simp

/-! ## Claim theorems -/

/-- C1, counterexample.  Submitting c1A (whose body throws) to the idle
engine while c1B arrives during the body: the run executes only body 1,
never body 2 -- yet c1B has left the queue, so its caller's promise
resolves, and with the fixed success value.  This refutes the claim that a
caller's promise resolves only after its specific action has been dequeued
and run, and that its result reflects that run. -/
theorem claim1_counterexample :
    queueAction initState c1A 2 c1Sched
      = Except.ok (some failedResult, c1Final) ∧
    c1Final.executedIds = [1] ∧
    waiterPoll c1Final c1B = some successResult := by decide

/-- C1 (amended): one dequeue runs exactly one action body; each drain
iteration executes the action at the head of the queue, so the actions
that do execute are executed in queue order; and a queued caller's promise
stays pending exactly while its action is in the queue, resolving always
with the fixed success value -- resolution does not imply that the
caller's action was run. -/
theorem claim1_queue_order :
    (∀ (s : EngineState) (l : String) (f : ActionFn) (t : Nat) (fires : Bool)
        (a1 a2 : List QueuedAction),
        ((executeAction s l (some f) t fires a1 a2).2).executedIds
          = s.executedIds ++ [f.id]) ∧
    (∀ (fuel : Nat) (sched : Nat → Bool × List QueuedAction × List QueuedAction)
        (i : Nat) (s : EngineState) (action : QueuedAction)
        (rest : List QueuedAction) (r : ActionResult) (s' : EngineState),
        s.actionQueue = action :: rest → action.resume = false →
        processQueue (fuel+1) sched i s = Except.ok (r, s') →
        ∃ ids, s'.executedIds = s.executedIds ++ action.fn.id :: ids) ∧
    (∀ (s : EngineState) (b : QueuedAction),
        (waiterPoll s b = none ↔ b ∈ s.actionQueue) ∧
        (∀ r, waiterPoll s b = some r → r = successResult)) := by
  refine ⟨?_, processQueue_head_first, ?_⟩
  · intro s l f t fires a1 a2
    simpa using executeAction_executedIds s l (some f) t fires a1 a2
  · intro s b
    exact ⟨waiterPoll_pending_iff s b, fun r h => waiterPoll_resolved_value s b r h⟩

/-- C1, witness for the amended theorem at a concrete single-action drain. -/
theorem claim1_witness :
    ∃ ids, w1Final.executedIds = w1Start.executedIds ++ w1Act.fn.id :: ids :=
  claim1_queue_order.2.1 1 schedNone 0 w1Start w1Act [] successResult w1Final
    rfl rfl (by decide)

/-- C2: a runAction call on a busy engine returns a pending promise; the
promise stays pending exactly while the QueuedAction is in the queue and
resolves with the fixed value of success / "success" / not timed out
whenever it is not, including after stop() cleared the queue and including
after a preceding action's failure cleared it, so a busy-engine caller can
never observe its action's real failure or timeout outcome. -/
theorem claim2_busy_caller_resolution :
    (∀ (s : EngineState) (a : QueuedAction) (fuel : Nat)
        (sched : Nat → Bool × List QueuedAction × List QueuedAction),
        s.executing = true →
        queueAction s a fuel sched
          = Except.ok (none, { s with actionQueue := s.actionQueue ++ [a] })) ∧
    (∀ (s : EngineState) (b : QueuedAction),
        waiterPoll s b = none ↔ b ∈ s.actionQueue) ∧
    (∀ (s : EngineState) (b : QueuedAction) (r : ActionResult),
        waiterPoll s b = some r → r = successResult) ∧
    (∀ (s : EngineState) (b : QueuedAction),
        waiterPoll (stop s) b = some successResult) ∧
    (∀ (fuel : Nat) (sched : Nat → Bool × List QueuedAction × List QueuedAction)
        (i : Nat) (s : EngineState) (r : ActionResult) (s' : EngineState),
        processQueue fuel sched i s = Except.ok (r, s') → r.success = false →
        ∀ b, waiterPoll s' b = some successResult) := by
  refine ⟨queueAction_busy, waiterPoll_pending_iff, waiterPoll_resolved_value,
    waiterPoll_after_stop, ?_⟩
  intro fuel sched i s r s' h hf b
  have hq := processQueue_failure_clears fuel sched i s r s' h hf
  simp [waiterPoll, hq]

/-- C2, witness: a concrete busy-engine submission leaves the promise
pending with the action appended to the queue. -/
theorem claim2_witness :
    queueAction w2Busy w2Act 1 schedNone
      = Except.ok (none, { w2Busy with actionQueue := w2Busy.actionQueue ++ [w2Act] }) :=
  claim2_busy_caller_resolution.1 w2Busy w2Act 1 schedNone rfl

/-- C3: a thrown action body makes the engine clear the execution state
(executing false, label and fn cleared), cancel the armed deadline timer,
clear the resume slot, call stop() again (so at least two interrupt
emissions) and return success false / "failed"; and a failing queued
action makes the drain discard every other pending action (final queue
empty, only the failing head's body in the execution log) rather than
execute it. -/
theorem claim3_thrown_action_cleanup :
    (∀ (s : EngineState) (l : String) (f : ActionFn) (t : Nat) (fires : Bool)
        (a1 a2 : List QueuedAction), f.outcome = BodyOutcome.throws →
        (executeAction s l (some f) t fires a1 a2).1 = failedResult ∧
        ((executeAction s l (some f) t fires a1 a2).2).executing = false ∧
        ((executeAction s l (some f) t fires a1 a2).2).currentActionLabel = "" ∧
        ((executeAction s l (some f) t fires a1 a2).2).currentActionFn = none ∧
        ((executeAction s l (some f) t fires a1 a2).2).resumeFunc = none ∧
        ((executeAction s l (some f) t fires a1 a2).2).resumeName = none ∧
        ((executeAction s l (some f) t fires a1 a2).2).actionQueue = [] ∧
        (0 < t → ((executeAction s l (some f) t fires a1 a2).2).timerActive = false) ∧
        (s.timerActive = false →
          ((executeAction s l (some f) t fires a1 a2).2).timerActive = false) ∧
        s.interruptEvents + 2
          ≤ ((executeAction s l (some f) t fires a1 a2).2).interruptEvents) ∧
    (∀ (fuel : Nat) (sched : Nat → Bool × List QueuedAction × List QueuedAction)
        (i : Nat) (s : EngineState) (action : QueuedAction)
        (rest : List QueuedAction),
        s.actionQueue = action :: rest → action.resume = false →
        action.fn.outcome = BodyOutcome.throws →
        ∃ s', processQueue (fuel+1) sched i s = Except.ok (failedResult, s') ∧
          s'.actionQueue = [] ∧
          s'.executedIds = s.executedIds ++ [action.fn.id]) :=
  ⟨executeAction_throws, processQueue_head_throws⟩

/-- C3, witness at a concrete one-element queue with a throwing head. -/
theorem claim3_witness :
    ∃ s', processQueue 1 schedNone 0 w3Start = Except.ok (failedResult, s') ∧
      s'.actionQueue = [] ∧
      s'.executedIds = w3Start.executedIds ++ [w3Act.fn.id] :=
  claim3_thrown_action_cleanup.2 0 schedNone 0 w3Start w3Act [] rfl rfl rfl

/-- C4: retryCount is non-decreasing under every context operation and the
guarded retry operations keep it at most maxRetries = 3; a fresh context
starts at 0; and a plan whose every step fails runs the retry recursion
exactly maxRetries times, ending with retryCount 3, status failed, and the
step error propagated to the caller. -/
theorem claim4_retry_bound :
    (∀ (op : ContextOp) (c : PlanContext),
        c.retryCount ≤ (applyOp op c).retryCount) ∧
    (∀ (op : ContextOp) (c : PlanContext),
        c.retryCount ≤ maxRetries → (applyOp op c).retryCount ≤ maxRetries) ∧
    (∀ (g : String) (now : Nat), (createContext g now).retryCount = 0) ∧
    (∀ e, executePlanAllFail e 4 0 = (PlanStatus.failed, 3, some e)) := by
  refine ⟨applyOp_mono, applyOp_bound, fun g now => rfl, fun e => ?_⟩
  simp [executePlanAllFail]

/-- C4, witness: a guarded retry at retryCount 2 stays within the bound. -/
theorem claim4_witness :
    (applyOp ContextOp.retryGuarded w4Ctx).retryCount ≤ maxRetries :=
  claim4_retry_bound.2.1 ContextOp.retryGuarded w4Ctx (by decide)

/-- C5, counterexample.  In the useActionManager variant (part_002), an
invocation of the resume handler that supplies no fresh function, made
while a resume slot is remembered, the bot is idle and the self-prompter
is off, executes the remembered body (id 7 appears in the execution log)
and returns that execution's result, not the no-op result -- refuting the
claim that every invocation without a fresh function executes nothing and
returns success false / message null. -/
theorem claim5_counterexample :
    fnExecuteResume c5State true false none none "out" "err" false
      = Except.ok ({ success := true, message := some "out",
                     interrupted := false, timedout := false }, c5Final) ∧
    c5Final.executedIds = [7] ∧
    ({ success := true, message := some "out", interrupted := false,
       timedout := false } : FnActionResult) ≠ fnResumeNoopResult := by decide

/-- C5 (amended): in the class-based ActionManager (part_001) the claim
holds -- no fresh function means a no-op result with untouched state, and
a fresh function (with a non-empty label) stores and executes exactly that
remembered body.  In the useActionManager variant (part_002) the
fresh-function requirement is waived when the bot is idle and the
self-prompter is off; there the no-op result is only guaranteed when no
resume slot is remembered. -/
theorem claim5_resume_handlers :
    (∀ (s : EngineState) (lbl : Option String) (t : Nat) (fires : Bool)
        (a1 a2 : List QueuedAction),
        executeResume s lbl none t fires a1 a2
          = Except.ok (resumeNoopResult, s)) ∧
    (∀ (s : EngineState) (lbl : String) (f : ActionFn) (t : Nat) (fires : Bool)
        (a1 a2 : List QueuedAction), lbl ≠ "" →
        ∃ r s', executeResume s (some lbl) (some f) t fires a1 a2
            = Except.ok (r, s')
          ∧ s'.executedIds = s.executedIds ++ [f.id]) ∧
    (∀ (s : FnEngineState) (idle sp : Bool) (o e : String) (i : Bool),
        s.resumeFunc = none →
        fnExecuteResume s idle sp none none o e i
          = Except.ok (fnResumeNoopResult, s)) :=
  ⟨executeResume_no_fresh_fn, executeResume_fresh_fn, fnExecuteResume_no_slot⟩

/-- C5, witness: a fresh resume on the class engine runs the supplied body. -/
theorem claim5_witness :
    ∃ r s', executeResume initState (some "w5") (some w5Fn) 10 false [] []
        = Except.ok (r, s')
      ∧ s'.executedIds = initState.executedIds ++ [w5Fn.id] :=
  claim5_resume_handlers.2.1 initState "w5" w5Fn 10 false [] [] (by decide)

/-- C6: when an action starts with timeout > 0 and its body does not finish
before the deadline, the armed timer fires once: it sets the timedout
flag, emits exactly one timeout notification and performs exactly one
extra stop() (interrupt emission) compared to the same run without the
firing -- and the caller's ActionResult is identical with and without the
firing, i.e. the timer never resolves the caller's promise; only the body
returning or throwing does. -/
theorem claim6_deadline_timer (s : EngineState) (l : String)
    (fn : Option ActionFn) (t : Nat) (a1 a2 : List QueuedAction)
    (ht : 0 < t) :
    (executeAction s l fn t true a1 a2).1 = (executeAction s l fn t false a1 a2).1 ∧
    ((executeAction s l fn t true a1 a2).2).timedout = true ∧
    ((executeAction s l fn t true a1 a2).2).timeoutEvents = s.timeoutEvents + 1 ∧
    ((executeAction s l fn t false a1 a2).2).timeoutEvents = s.timeoutEvents ∧
    ((executeAction s l fn t true a1 a2).2).interruptEvents
      = ((executeAction s l fn t false a1 a2).2).interruptEvents + 1 := by
  unfold executeAction
  rcases h : bodyOutcomeOf fn <;>
    simp_all [stop, cancelResume, resetExecutionState, timerFire, ht]

/-- C6, witness at a concrete 10-minute deadline that fires. -/
theorem claim6_witness :
    (executeAction initState "w6" (some w6Fn) 10 true [] []).1
      = (executeAction initState "w6" (some w6Fn) 10 false [] []).1 ∧
    ((executeAction initState "w6" (some w6Fn) 10 true [] []).2).timedout = true ∧
    ((executeAction initState "w6" (some w6Fn) 10 true [] []).2).timeoutEvents
      = initState.timeoutEvents + 1 ∧
    ((executeAction initState "w6" (some w6Fn) 10 false [] []).2).timeoutEvents
      = initState.timeoutEvents ∧
    ((executeAction initState "w6" (some w6Fn) 10 true [] []).2).interruptEvents
      = ((executeAction initState "w6" (some w6Fn) 10 false [] []).2).interruptEvents + 1 :=
  claim6_deadline_timer initState "w6" (some w6Fn) 10 [] [] (by decide)

/-- C7, counterexample.  When the completion gateway returns a batch of four
steps, the generator yields all four -- the first yielded element has
length 4 > 3, refuting the claim that every yielded element is a batch of
at most 3 steps. -/
theorem claim7_counterexample :
    generatorYield (fun _ => [c7Step, c7Step, c7Step, c7Step]) (fun _ => false) 0
      = some [c7Step, c7Step, c7Step, c7Step] ∧
    3 < ([c7Step, c7Step, c7Step, c7Step] : List PlanStep).length := by decide

/-- C7 (amended): every yielded element is a non-empty batch equal to what
one completion-gateway call returned (no size bound is enforced), and the
loop reaches chunk k+1 exactly when chunk k was non-empty, had at least 3
steps, and the goal-achieved predicate was false -- so the stream ends
exactly when a batch comes back empty (not yielded), or after yielding a
batch shorter than 3, or once the goal is achieved, and it is infinite
when the gateway keeps returning full batches and the goal is never
achieved. -/
theorem claim7_generator_semantics :
    (∀ (b : Nat → List PlanStep) (a : Nat → Bool) (k : Nat) (l : List PlanStep),
        generatorYield b a k = some l → l ≠ [] ∧ l = b k) ∧
    (∀ (b : Nat → List PlanStep) (a : Nat → Bool) (k : Nat),
        generatorReaches b a (k+1) = true ↔
          (generatorReaches b a k = true ∧ b k ≠ [] ∧ 3 ≤ (b k).length
            ∧ a k = false)) ∧
    (∀ (b : Nat → List PlanStep) (a : Nat → Bool) (k : Nat),
        generatorYield b a k = none ↔
          (generatorReaches b a k = false ∨ b k = [])) :=
  ⟨generatorYield_nonempty, generatorReaches_succ, generatorYield_none_iff⟩

/-- C7, witness: a concrete yielded batch is non-empty and equal to the
gateway's batch. -/
theorem claim7_witness :
    ([w7Step] : List PlanStep) ≠ [] ∧ [w7Step] = (fun _ => [w7Step]) 0 :=
  claim7_generator_semantics.1 (fun _ => [w7Step]) (fun _ => true) 0 [w7Step]
    (by decide)

/-- C8, counterexample.  With no active PlanContext, adjustPlan falls back
to createPlan on the plan's goal: for the failed plan with goal "hello"
(classified as requiring no action) and feedback "not found", the result
is a completed, empty plan -- no recovery step was prepended even though
the feedback matches a recovery pattern, and the status is completed, not
pending.  This refutes the claim for every plan and feedback string. -/
theorem claim8_counterexample :
    adjustPlan none c8Plan "not found" [] none []
      = { goal := "hello", steps := [], status := PlanStatus.completed,
          requiresAction := false } ∧
    generateRecoverySteps "not found" ≠ [] ∧
    PlanStatus.completed ≠ PlanStatus.pending := by decide

/-- C8 (amended): when a PlanContext is active, adjustPlan derives its
recovery steps as the pure function generateRecoverySteps of the feedback
alone, places them after the already-executed prefix and before the
freshly generated steps, and returns a plan with status pending; the
recovery table maps "not found" to the broaden-search step, "inventory
full" to the discard step, "blocked" and "cannot reach" to the reposition
step, and "need tool" to the craft-then-equip pair.  Without an active
context adjustPlan falls back to createPlan and none of this applies. -/
theorem claim8_adjustPlan_recovery :
    (∀ (c : PlanContext) (plan : Plan) (fb : String) (ns : List PlanStep)
        (ca : Option Plan) (gs : List PlanStep),
        (adjustPlan (some c) plan fb ns ca gs).status = PlanStatus.pending ∧
        (adjustPlan (some c) plan fb ns ca gs).steps
          = plan.steps.take c.currentStep ++ generateRecoverySteps fb ++ ns) ∧
    generateRecoverySteps "not found" = [recoverySearchStep] ∧
    generateRecoverySteps "inventory full" = [recoveryDiscardStep] ∧
    generateRecoverySteps "blocked" = [recoveryMoveAwayStep] ∧
    generateRecoverySteps "cannot reach" = [recoveryMoveAwayStep] ∧
    generateRecoverySteps "need tool" = [recoveryCraftStep, recoveryEquipStep] := by
  refine ⟨fun c plan fb ns ca gs => ⟨rfl, rfl⟩, ?_, ?_, ?_, ?_, ?_⟩ <;> decide

/-- C9, counterexample.  handleInterrupt on a currentPlan whose status is
already terminal (completed) sets it to failed -- a planning-agent
operation changing a plan's status after it reached a terminal value,
refuting the claim. -/
theorem claim9_counterexample :
    handleInterrupt (some c9Plan) none
      = (some { goal := "mine stone", steps := [],
                status := PlanStatus.failed, requiresAction := true }, none) ∧
    c9Plan.status = PlanStatus.completed ∧
    PlanStatus.failed ≠ PlanStatus.completed := by decide

/-- C9 (amended): a retried goal gets a new Plan value -- adjustPlan with an
active context always returns a plan with status pending, distinct from
the failed plan it replaces -- and executePlan drives an action-requiring
plan to completed or failed; but handleInterrupt unconditionally sets the
current plan's status to failed whatever its prior status, including the
terminal completed. -/
theorem claim9_plan_status :
    (∀ (p : Plan) (c : Option PlanContext),
        handleInterrupt (some p) c
          = (some { p with status := PlanStatus.failed }, none)) ∧
    (∀ (c : PlanContext) (plan : Plan) (fb : String) (ns : List PlanStep)
        (ca : Option Plan) (gs : List PlanStep),
        (adjustPlan (some c) plan fb ns ca gs).status = PlanStatus.pending) ∧
    (∀ (c : PlanContext) (plan : Plan) (fb : String) (ns : List PlanStep)
        (ca : Option Plan) (gs : List PlanStep),
        plan.status = PlanStatus.failed →
        adjustPlan (some c) plan fb ns ca gs ≠ plan) ∧
    (∀ (plan : Plan) (ok : Bool), plan.requiresAction = true →
        (executePlanStatus plan ok).status
          = (if ok then PlanStatus.completed else PlanStatus.failed)) :=
  ⟨handleInterrupt_sets_failed, adjustPlan_ctx_status, adjustPlan_new_value,
    executePlanStatus_terminal⟩

/-- C9, witness: adjusting a concrete failed plan yields a different Plan
value. -/
theorem claim9_witness :
    adjustPlan (some w9Ctx) w9Plan "stuck" [] none [] ≠ w9Plan :=
  claim9_plan_status.2.2.1 w9Ctx w9Plan "stuck" [] none [] rfl

/-- C10: every ActionResult produced by the engine -- by executeAction on
either branch, by the resume handler, by the drain loop, by a resolved
busy-path waiter, and by a drained runAction call -- carries timedout
false; resetExecutionState leaves the timedout flag unchanged; and once
the flag is true it stays true through executeAction and through any
drain. -/
theorem claim10_timedout_invariants :
    (∀ (s : EngineState) (l : String) (fn : Option ActionFn) (t : Nat)
        (fires : Bool) (a1 a2 : List QueuedAction),
        ((executeAction s l fn t fires a1 a2).1).timedout = false) ∧
    (∀ (s : EngineState) (lbl : Option String) (fn : Option ActionFn) (t : Nat)
        (fires : Bool) (a1 a2 : List QueuedAction) (r : ActionResult)
        (s' : EngineState),
        executeResume s lbl fn t fires a1 a2 = Except.ok (r, s') →
        r.timedout = false) ∧
    (∀ (fuel : Nat) (sched : Nat → Bool × List QueuedAction × List QueuedAction)
        (i : Nat) (s : EngineState) (r : ActionResult) (s' : EngineState),
        processQueue fuel sched i s = Except.ok (r, s') → r.timedout = false) ∧
    (∀ (s : EngineState) (b : QueuedAction) (r : ActionResult),
        waiterPoll s b = some r → r.timedout = false) ∧
    (∀ (s : EngineState) (a : QueuedAction) (fuel : Nat)
        (sched : Nat → Bool × List QueuedAction × List QueuedAction)
        (r : ActionResult) (s' : EngineState),
        queueAction s a fuel sched = Except.ok (some r, s') →
        r.timedout = false) ∧
    (∀ (hp : Bool) (s : EngineState),
        (resetExecutionState hp s).timedout = s.timedout) ∧
    (∀ (s : EngineState) (l : String) (fn : Option ActionFn) (t : Nat)
        (fires : Bool) (a1 a2 : List QueuedAction), s.timedout = true →
        ((executeAction s l fn t fires a1 a2).2).timedout = true) ∧
    (∀ (fuel : Nat) (sched : Nat → Bool × List QueuedAction × List QueuedAction)
        (i : Nat) (s : EngineState) (r : ActionResult) (s' : EngineState),
        processQueue fuel sched i s = Except.ok (r, s') →
        s.timedout = true → s'.timedout = true) := by
  refine ⟨executeAction_result_timedout, executeResume_result_timedout,
    processQueue_result_timedout, ?_, ?_, fun hp s => rfl, ?_,
    processQueue_timedout_mono⟩
  · intro s b r h
    rw [waiterPoll_resolved_value s b r h]; rfl
  · intro s a fuel sched r s' h
    obtain ⟨s0, h0⟩ := queueAction_drained s a fuel sched r s' h
    exact processQueue_result_timedout fuel sched 0 s0 r s' h0
  · intro s l fn t fires a1 a2 ht
    rw [executeAction_state_timedout, ht]; rfl

/-- C10, witness: a drain started with the timedout flag set leaves it
set. -/
theorem claim10_witness :
    ({ actionQueue := [], executing := false, currentActionLabel := "",
       currentActionFn := none, timedout := true, resumeFunc := none,
       resumeName := none, timerActive := false, interruptEvents := 1,
       timeoutEvents := 0, executedIds := [51] } : EngineState).timedout = true :=
  claim10_timedout_invariants.2.2.2.2.2.2.2 1 schedNone 0 w10Start
    successResult _ (by decide) rfl

end AiriMC
